import Mathlib

/-
Verification of the cross-account CI/CD bootstrap scripts and CDK stacks.

The development shallowly embeds:
  * the bootstrap shell script (automate_deployment.sh): its command trace,
    its key-ARN extraction pipeline (sed + awk), and the scheduling of its
    background deployment jobs;
  * the two PipelineStack variants, the ApplicationStack, and the CDK app
    entry point, as explicit resource-graph records.
-/

namespace AwsCicd

/- ## Character and string utilities (executable, kernel-reducible) -/

/-- Boolean test that the first character list is an initial segment of the second. -/
def leadsWith : List Char → List Char → Bool
  | [], _ => true
  | _ :: _, [] => false
  | a :: as, b :: bs => a = b && leadsWith as bs

/-- Boolean substring search on character lists: pat occurs somewhere in s. -/
def hasSub (pat : List Char) : List Char → Bool
  | [] => leadsWith pat []
  | c :: rest => leadsWith pat (c :: rest) || hasSub pat rest

/-- Substring containment on strings, as used by sed and awk regex literals
such as /Outputs:/ and /KeyArn/ (plain-text patterns, so regex match is
substring containment). -/
def strContainsSub (s pat : String) : Bool :=
  hasSub pat.data s.data

/-- Split a character list into lines at newline characters. -/
def linesAux : List Char → List Char → List String
  | [], acc => [String.mk acc.reverse]
  | c :: cs, acc =>
    if c = '\n' then String.mk acc.reverse :: linesAux cs [] else linesAux cs (c :: acc)

/-- The lines of a text block. -/
def strLines (t : String) : List String :=
  linesAux t.data []

/-- Split a character list into maximal runs separated by spaces and tabs,
dropping empty runs: awk field splitting with FS set to a single space. -/
def fieldsAux : List Char → List Char → List String
  | [], acc => if acc.isEmpty then [] else [String.mk acc.reverse]
  | c :: cs, acc =>
    if c = ' ' || c = '\t' then
      (if acc.isEmpty then fieldsAux cs [] else String.mk acc.reverse :: fieldsAux cs [])
    else fieldsAux cs (c :: acc)

/-- The whitespace-delimited fields of a line, awk-style. -/
def awkFields (l : String) : List String :=
  fieldsAux l.data []

/-- Field number 3 of a line in awk numbering (empty when the line has fewer
than three fields). -/
def awkThirdField (l : String) : String :=
  (awkFields l).getD 2 ""

/-- Join a list of printed lines with newlines, as the lines appear on awk
standard output. -/
def joinNL : List String → String
  | [] => ""
  | [s] => s
  | s :: rest => s ++ "\n" ++ joinNL rest

/-- Strip trailing newline characters, as shell command substitution does. -/
def stripTrailNL (s : String) : String :=
  String.mk ((s.data.reverse.dropWhile (fun c => c = '\n')).reverse)

/- ## The key-ARN extraction of the bootstrap script

Script lines 79-80:
  sed -n -e the range from Outputs: to the next empty line, printed;
  awk -F " " prints field 3 of every line containing KeyArn;
  KEY_ARN receives the command substitution of the awk output.
-/

/-- One pass of sed -n with the address range from a line containing
Outputs: to the next empty line, printing selected lines.  The boolean
argument is the in-range state: when a range closes on an empty line, a
later line containing Outputs: opens a new range (sed address ranges
restart). -/
def sedSel : Bool → List String → List String
  | _, [] => []
  | false, l :: ls =>
    if strContainsSub l "Outputs:" then l :: sedSel true ls else sedSel false ls
  | true, l :: ls => l :: sedSel (if l = "" then false else true) ls

/-- The lines the sed invocation writes to the intermediate outputs file. -/
def cfnOutputsRegion (t : String) : List String :=
  sedSel false (strLines t)

/-- The value of KEY_ARN: for every selected line containing KeyArn, awk
prints its third field; the shell command substitution joins the printed
lines and strips trailing newlines. -/
def extractKeyArn (t : String) : String :=
  stripTrailNL (joinNL (((cfnOutputsRegion t).filter
    (fun l => strContainsSub l "KeyArn")).map awkThirdField))

/- ## The extraction as the claim describes it

The claim says the extraction selects exactly the lines from the first line
matching Outputs: through the next blank line and returns the third token of
a KeyArn line of that single region.  The following two definitions follow
the claim wording, to be compared with the functions above. -/

/-- Lines of a list up to and including the first empty line. -/
def takeThroughBlank : List String → List String
  | [] => []
  | l :: ls => if l = "" then [l] else l :: takeThroughBlank ls

/-- The single region the claim describes: from the first line containing
Outputs: through the next blank line. -/
def specFirstRegion (ls : List String) : List String :=
  takeThroughBlank (ls.dropWhile (fun l => !(strContainsSub l "Outputs:")))

/-- The extraction result the claim describes: the third whitespace-delimited
token of a KeyArn line of the first Outputs: region, empty when that region
has no such line. -/
def specExtractKeyArn (t : String) : String :=
  match (specFirstRegion (strLines t)).filter (fun l => strContainsSub l "KeyArn") with
  | [] => ""
  | l :: _ => awkThirdField l

/- ## The deployment calls of the bootstrap script -/

/-- One aws cloudformation deploy invocation: template file, stack name,
profile, and the parameter overrides in command order. -/
structure DeployCall where
  templateFile : String
  stackName : String
  profile : String
  params : List (String × String)
deriving DecidableEq, Repr

/-- The four phase-1 role deployments, script lines 36-57, in script order. -/
def phase1Calls (tools : String) : List DeployCall :=
  [ ⟨"templates/CodePipelineCrossAccountRole.yml", "CodePipelineCrossAccountRole", "uat",
      [("ToolsAccountID", tools), ("Stage", "Uat")]⟩,
    ⟨"templates/CloudFormationDeploymentRole.yml", "CloudFormationDeploymentRole", "uat",
      [("ToolsAccountID", tools), ("Stage", "Uat")]⟩,
    ⟨"templates/CodePipelineCrossAccountRole.yml", "CodePipelineCrossAccountRole", "prod",
      [("ToolsAccountID", tools), ("Stage", "Prod")]⟩,
    ⟨"templates/CloudFormationDeploymentRole.yml", "CloudFormationDeploymentRole", "prod",
      [("ToolsAccountID", tools), ("Stage", "Prod")]⟩ ]

/-- Which of the four phase-1 deploy commands end in an ampersand: the first
three are background jobs (lines 40, 46, 51), the fourth runs in the
foreground (line 57).  The script contains no wait builtin. -/
def phase1BgFlags : List Bool := [true, true, true, false]

/-- The four phase-2 role deployments, script lines 90-112, in script order:
uat cross-account role, uat deployment role, prod deployment role, prod
cross-account role, each now carrying the KeyArn parameter. -/
def phase2Calls (tools keyArn : String) : List DeployCall :=
  [ ⟨"templates/CodePipelineCrossAccountRole.yml", "CodePipelineCrossAccountRole", "uat",
      [("ToolsAccountID", tools), ("Stage", "Uat"), ("KeyArn", keyArn)]⟩,
    ⟨"templates/CloudFormationDeploymentRole.yml", "CloudFormationDeploymentRole", "uat",
      [("ToolsAccountID", tools), ("Stage", "Uat"), ("KeyArn", keyArn)]⟩,
    ⟨"templates/CloudFormationDeploymentRole.yml", "CloudFormationDeploymentRole", "prod",
      [("ToolsAccountID", tools), ("Stage", "Prod"), ("KeyArn", keyArn)]⟩,
    ⟨"templates/CodePipelineCrossAccountRole.yml", "CodePipelineCrossAccountRole", "prod",
      [("ToolsAccountID", tools), ("Stage", "Prod"), ("KeyArn", keyArn)]⟩ ]

/-- Background flags of the phase-2 deploy commands (ampersands on lines 94,
100, 106; none on line 112). -/
def phase2BgFlags : List Bool := [true, true, true, false]

/-- Add the KeyArn parameter override to a deployment call. -/
def addKeyArn (k : String) (d : DeployCall) : DeployCall :=
  { d with params := d.params ++ [("KeyArn", k)] }

/- ## The command trace of the bootstrap script -/

/-- The externally visible, state-changing commands the script can issue.
Diagnostic printf lines are not modelled. -/
inductive Step where
  | cfnDeploy (d : DeployCall)
  | npmInstall
  | npmAuditFix
  | npmRunBuild
  | cdkSynth
  | cdkDeployRepo
  | rmOutputFiles
  | cdkDeployPipeline (uat prod : String)
  | gitInit
  | gitBranchMain
  | gitAddAll
  | gitCommit
  | gitRemoteRm
  | gitRemoteAdd (url : String)
  | gitConfigRemove
  | gitConfigMerge
  | gitPush
  | rmTempFiles
deriving DecidableEq, Repr

/-- Whether a step is a deployment operation handed to a provisioning engine. -/
def isDeployStep : Step → Bool
  | .cfnDeploy _ => true
  | .cdkDeployRepo => true
  | .cdkDeployPipeline _ _ => true
  | _ => false

/-- The three account identifiers read from the environment; the empty
string models an unset variable, exactly as the -z test of line 26 sees it. -/
structure BootstrapEnv where
  tools : String
  uat : String
  prod : String
deriving DecidableEq, Repr

/-- Commands of a shell line joined by the and-and operator: each command
runs only when every earlier command of the chain succeeded. -/
def andChain (ok : Step → Bool) : List Step → List Step
  | [] => []
  | c :: cs => c :: (if ok c then andChain ok cs else [])

/-- The commands issued before the key extraction: the four phase-1 role
deployments (lines 36-57), the npm and cdk synth commands (lines 62-65),
the repository stack deployment (line 66), the removal of stale output
files (line 72), and the captured pipeline stack deployment (lines 73-78). -/
def preKeySteps (env : BootstrapEnv) : List Step :=
  (phase1Calls env.tools).map Step.cfnDeploy ++
  [Step.npmInstall, Step.npmAuditFix, Step.npmRunBuild, Step.cdkSynth,
   Step.cdkDeployRepo, Step.rmOutputFiles, Step.cdkDeployPipeline env.uat env.prod]

/-- The git commands of lines 116-118.  Lines 116 and 118 are and-and
chains, line 117 is unconditional. -/
def gitSteps (tools : String) (ok : Step → Bool) : List Step :=
  andChain ok [Step.gitInit, Step.gitBranchMain, Step.gitAddAll, Step.gitCommit, Step.gitRemoteRm] ++
  [Step.gitRemoteAdd ("https://git-codecommit.us-west-2.amazonaws.com/v1/repos/repo-" ++ tools)] ++
  andChain ok [Step.gitConfigRemove, Step.gitConfigMerge, Step.gitPush]

/-- The full command trace of the script: ok gives the success of each
command (the script has no set -e, so only the and-and chains consult it),
cdkOut is the text captured from the pipeline stack deployment.  Line 26
exits before any command when an account identifier is missing; line 83
exits after the capture when the extracted key ARN is empty. -/
def bootstrapTrace (env : BootstrapEnv) (ok : Step → Bool) (cdkOut : String) : List Step :=
  if env.tools = "" ∨ env.uat = "" ∨ env.prod = "" then []
  else
    preKeySteps env ++
    (if extractKeyArn cdkOut = "" then []
     else
       (phase2Calls env.tools (extractKeyArn cdkOut)).map Step.cfnDeploy ++
       gitSteps env.tools ok ++ [Step.rmTempFiles])

/- ## Scheduling of the script commands

A schedule assigns a start and a finish instant to every command of the
prefix of the script up to the pipeline stack deployment.  The shell starts
commands in script order; it starts the successor of a foreground command
only after that command finished; a background command (trailing ampersand)
keeps running while the shell moves on, and since the script contains no
wait builtin nothing ever joins it. -/

/-- Background flags of the eleven commands up to and including the pipeline
stack deployment: the phase-1 flags followed by the seven foreground
commands of preKeySteps. -/
def bootBgFlags : List Bool :=
  phase1BgFlags ++ [false, false, false, false, false, false, false]

/-- A schedule compatible with shell semantics for commands with the given
background flags: starts are in script order, every command starts before it
finishes, and a foreground command finishes before its successor starts. -/
def ValidSchedule (bg : List Bool) (s f : List Nat) : Prop :=
  s.length = bg.length ∧ f.length = bg.length ∧
  (∀ i, i < bg.length → s.getD i 0 < f.getD i 0) ∧
  (∀ j, j < bg.length → ∀ i, i < j → s.getD i 0 < s.getD j 0) ∧
  (∀ i, i < bg.length - 1 → bg.getD i true = false → f.getD i 0 < s.getD (i + 1) 0)

instance (bg : List Bool) (s f : List Nat) : Decidable (ValidSchedule bg s f) := by
  unfold ValidSchedule; exact inferInstance

/-- The property the claim asserts: every phase-1 role deployment
(commands 0-3) finishes before any phase-2 deployment command (the
repository stack deployment, command 8, and the pipeline stack deployment,
command 10) starts. -/
def phase1BarrierHolds (s f : List Nat) : Prop :=
  ∀ i, i < 4 → ∀ j, j ∈ [8, 10] → f.getD i 0 < s.getD j 0

instance (s f : List Nat) : Decidable (phase1BarrierHolds s f) := by
  unfold phase1BarrierHolds; exact inferInstance

/-- A concrete schedule: the three background role deployments finish long
after everything else, which shell semantics permits. -/
def lateBgStarts : List Nat := [0, 1, 2, 3, 6, 8, 10, 12, 14, 16, 18]

/-- Finish instants of the schedule above. -/
def lateBgFinishes : List Nat := [100, 101, 102, 4, 7, 9, 11, 13, 15, 17, 19]

/-- A schedule in which every command finishes just after it starts. -/
def promptStarts : List Nat := [0, 3, 6, 9, 12, 15, 18, 21, 24, 27, 30]

/-- Finish instants of the prompt schedule. -/
def promptFinishes : List Nat := [1, 4, 7, 10, 13, 16, 19, 22, 25, 28, 31]

/- ## The failure-abort property the spec claims of the script -/

/-- The property the claim asserts of the trace: after a failed deployment
operation, no deployment or push command is issued any more. -/
def abortsAfterFailedDeploy (env : BootstrapEnv) (ok : Step → Bool) (out : String) : Prop :=
  ∀ i j : Fin (bootstrapTrace env ok out).length, i < j →
    isDeployStep ((bootstrapTrace env ok out).get i) = true →
    ok ((bootstrapTrace env ok out).get i) = false →
    isDeployStep ((bootstrapTrace env ok out).get j) = false ∧
    (bootstrapTrace env ok out).get j ≠ Step.gitPush

instance (env : BootstrapEnv) (ok : Step → Bool) (out : String) :
    Decidable (abortsAfterFailedDeploy env ok out) := by
  unfold abortsAfterFailedDeploy; exact inferInstance

/-- The deployment call the first phase-1 command issues when the tools
account is 111: the uat cross-account role stack. -/
def firstRoleCall : DeployCall :=
  ⟨"templates/CodePipelineCrossAccountRole.yml", "CodePipelineCrossAccountRole", "uat",
    [("ToolsAccountID", "111"), ("Stage", "Uat")]⟩

/-- An outcome assignment under which exactly the first phase-1 role
deployment fails. -/
def failFirstRole : Step → Bool :=
  fun s => decide (s ≠ Step.cfnDeploy firstRoleCall)

/- ## The application stack (src/lib/application-stack.ts) -/

/-- The resources the ApplicationStack constructor declares, as a record:
the Lambda function (name, handler, runtime, STAGE_NAME environment entry),
the REST api (export name, deployment stage name), the alias, and the
CodeDeploy deployment group configuration. -/
structure ApplicationModel where
  functionName : String
  handler : String
  runtime : String
  stageNameEnv : String
  apiEndpointExportName : String
  apiDeployStageName : String
  aliasName : String
  deploymentConfig : String
deriving DecidableEq, Repr

/-- The ApplicationStack constructor, lines 16-50 of application-stack.ts,
as a function of the stageName prop. -/
def applicationStack (stageName : String) : ApplicationModel :=
  { functionName := "HelloLambda"
    handler := "index.handler"
    runtime := "NODEJS_LATEST"
    stageNameEnv := stageName
    apiEndpointExportName := "HelloLambdaRestApiEmdpoint"
    apiDeployStageName := stageName
    aliasName := stageName
    deploymentConfig := "ALL_AT_ONCE" }

/-- Overwrite every stage-name-bearing field of an application model. -/
def setApplicationStage (m : ApplicationModel) (s : String) : ApplicationModel :=
  { m with stageNameEnv := s, apiDeployStageName := s, aliasName := s }

/- ## The pipeline stack variants -/

/-- A CodeBuild pipeline project: buildspec commands, artifact settings,
build image, and whether it encrypts artifacts with the pipeline key. -/
structure BuildProject where
  projectId : String
  installCommands : List String
  buildCommands : List String
  artifactsBaseDirectory : String
  artifactsFiles : List String
  buildImage : String
  usesArtifactKey : Bool
deriving DecidableEq, Repr

/-- A CodeCommit source action. -/
structure SourceActionModel where
  actionName : String
  repositoryName : String
  outputArtifact : String
  branch : String
deriving DecidableEq, Repr

/-- A CodeBuild action. -/
structure BuildActionModel where
  actionName : String
  projectId : String
  inputArtifact : String
  outputArtifacts : List String
deriving DecidableEq, Repr

/-- A CloudFormation create-or-update deploy action. -/
structure DeployActionModel where
  actionName : String
  templatePath : String
  stackName : String
  adminPermissions : Bool
  lambdaCodeParamsFromArtifact : String
  extraInputs : List String
  cfnCapabilities : List String
  roleArn : String
  deploymentRoleArn : String
deriving DecidableEq, Repr

/-- A pipeline action. -/
inductive PipelineAction where
  | source (a : SourceActionModel)
  | build (a : BuildActionModel)
  | deploy (a : DeployActionModel)
deriving DecidableEq, Repr

/-- A pipeline stage. -/
structure PipelineStage where
  stageName : String
  actions : List PipelineAction
deriving DecidableEq, Repr

/-- The resource graph a PipelineStack constructor declares.  Principals in
grant lists are rendered as strings: account root principals as the account
id after an account-root marker, imported roles by their ARNs. -/
structure PipelineModel where
  repositoryName : String
  uatCloudFormationRoleArn : String
  uatCodePipelineRoleArn : String
  prodCloudFormationRoleArn : String
  prodCodePipelineRoleArn : String
  keyAlias : String
  keyDecryptGrants : List String
  bucketName : String
  bucketRemovalDestroy : Bool
  bucketEncryption : String
  bucketPutGrants : List String
  bucketReadGrants : List String
  cdkBuild : BuildProject
  lambdaBuild : BuildProject
  pipelineName : String
  stages : List PipelineStage
  pipelineAssumeRoleResources : List String
  outputName : String
  outputValue : String
  outputExportName : String
deriving DecidableEq, Repr

/-- The aws-cdk-lib PipelineStack variant, as a function of this.account
and the two account-id props.  Field by field from its constructor:
repository lookup, the four imported role ARNs, the KMS key with its four
decrypt grants, the artifact bucket with its grants, the two build projects,
the four pipeline stages, the assume-role policy, and the key ARN output. -/
def pipelineStackV1 (account uatAccountId prodAccountId : String) : PipelineModel :=
  { repositoryName := "repo-" ++ account
    uatCloudFormationRoleArn := "arn:aws:iam::" ++ uatAccountId ++ ":role/CloudFormationDeploymentRole"
    uatCodePipelineRoleArn := "arn:aws:iam::" ++ uatAccountId ++ ":role/CodePipelineCrossAccountRole"
    prodCloudFormationRoleArn := "arn:aws:iam::" ++ prodAccountId ++ ":role/CloudFormationDeploymentRole"
    prodCodePipelineRoleArn := "arn:aws:iam::" ++ prodAccountId ++ ":role/CodePipelineCrossAccountRole"
    keyAlias := "key/pipeline-artifact-key"
    keyDecryptGrants :=
      ["account-root:" ++ uatAccountId,
       "arn:aws:iam::" ++ uatAccountId ++ ":role/CodePipelineCrossAccountRole",
       "account-root:" ++ prodAccountId,
       "arn:aws:iam::" ++ prodAccountId ++ ":role/CodePipelineCrossAccountRole"]
    bucketName := "artifact-bucket-" ++ account
    bucketRemovalDestroy := true
    bucketEncryption := "KMS"
    bucketPutGrants := ["account-root:" ++ uatAccountId, "account-root:" ++ prodAccountId]
    bucketReadGrants := ["account-root:" ++ uatAccountId, "account-root:" ++ prodAccountId]
    cdkBuild :=
      { projectId := "CdkBuild"
        installCommands := ["npm install"]
        buildCommands := ["npm run build", "npm run cdk synth -- -o dist"]
        artifactsBaseDirectory := "dist"
        artifactsFiles := ["*ApplicationStack.template.json"]
        buildImage := "AMAZON_LINUX_2_3"
        usesArtifactKey := true }
    lambdaBuild :=
      { projectId := "LambdaBuild"
        installCommands := ["cd app", "npm install"]
        buildCommands := ["npm run build"]
        artifactsBaseDirectory := "app"
        artifactsFiles := ["index.js", "node_modules/**/*"]
        buildImage := "AMAZON_LINUX_2_3"
        usesArtifactKey := true }
    pipelineName := "CrossAccountPipeline"
    stages :=
      [ { stageName := "Source"
          actions := [.source
            { actionName := "CodeCommit_Source"
              repositoryName := "repo-" ++ account
              outputArtifact := "sourceOutput"
              branch := "main" }] },
        { stageName := "Build"
          actions :=
            [.build
              { actionName := "Application_Build"
                projectId := "LambdaBuild"
                inputArtifact := "sourceOutput"
                outputArtifacts := ["LambdaBuildOutput"] },
             .build
              { actionName := "CDK_Synth"
                projectId := "CdkBuild"
                inputArtifact := "sourceOutput"
                outputArtifacts := ["CdkBuildOutput"] }] },
        { stageName := "Deploy_Uat"
          actions := [.deploy
            { actionName := "Deploy"
              templatePath := "CdkBuildOutput::UatApplicationStack.template.json"
              stackName := "UatApplicationDeploymentStack"
              adminPermissions := false
              lambdaCodeParamsFromArtifact := "LambdaBuildOutput"
              extraInputs := ["LambdaBuildOutput"]
              cfnCapabilities := ["ANONYMOUS_IAM"]
              roleArn := "arn:aws:iam::" ++ uatAccountId ++ ":role/CodePipelineCrossAccountRole"
              deploymentRoleArn := "arn:aws:iam::" ++ uatAccountId ++ ":role/CloudFormationDeploymentRole" }] },
        { stageName := "Deploy_Prod"
          actions := [.deploy
            { actionName := "Deploy"
              templatePath := "CdkBuildOutput::ProdApplicationStack.template.json"
              stackName := "ProdApplicationDeploymentStack"
              adminPermissions := false
              lambdaCodeParamsFromArtifact := "LambdaBuildOutput"
              extraInputs := ["LambdaBuildOutput"]
              cfnCapabilities := ["ANONYMOUS_IAM"]
              roleArn := "arn:aws:iam::" ++ prodAccountId ++ ":role/CodePipelineCrossAccountRole"
              deploymentRoleArn := "arn:aws:iam::" ++ prodAccountId ++ ":role/CloudFormationDeploymentRole" }] } ]
    pipelineAssumeRoleResources :=
      ["arn:aws:iam::" ++ uatAccountId ++ ":role/*", "arn:aws:iam::" ++ prodAccountId ++ ":role/*"]
    outputName := "ArtifactBucketEncryptionKeyArn"
    outputValue := "ArtifactKey.keyArn"
    outputExportName := "ArtifactBucketEncryptionKey" }

/-- The monopackage PipelineStack variant, field by field from its own
constructor text. -/
def pipelineStackV2 (account uatAccountId prodAccountId : String) : PipelineModel :=
  { repositoryName := "repo-" ++ account
    uatCloudFormationRoleArn := "arn:aws:iam::" ++ uatAccountId ++ ":role/CloudFormationDeploymentRole"
    uatCodePipelineRoleArn := "arn:aws:iam::" ++ uatAccountId ++ ":role/CodePipelineCrossAccountRole"
    prodCloudFormationRoleArn := "arn:aws:iam::" ++ prodAccountId ++ ":role/CloudFormationDeploymentRole"
    prodCodePipelineRoleArn := "arn:aws:iam::" ++ prodAccountId ++ ":role/CodePipelineCrossAccountRole"
    keyAlias := "key/pipeline-artifact-key"
    keyDecryptGrants :=
      ["account-root:" ++ uatAccountId,
       "arn:aws:iam::" ++ uatAccountId ++ ":role/CodePipelineCrossAccountRole",
       "account-root:" ++ prodAccountId,
       "arn:aws:iam::" ++ prodAccountId ++ ":role/CodePipelineCrossAccountRole"]
    bucketName := "artifact-bucket-" ++ account
    bucketRemovalDestroy := true
    bucketEncryption := "KMS"
    bucketPutGrants := ["account-root:" ++ uatAccountId, "account-root:" ++ prodAccountId]
    bucketReadGrants := ["account-root:" ++ uatAccountId, "account-root:" ++ prodAccountId]
    cdkBuild :=
      { projectId := "CdkBuild"
        installCommands := ["npm install"]
        buildCommands := ["npm run build", "npm run cdk synth -- -o dist"]
        artifactsBaseDirectory := "dist"
        artifactsFiles := ["*ApplicationStack.template.json"]
        buildImage := "AMAZON_LINUX_2_3"
        usesArtifactKey := true }
    lambdaBuild :=
      { projectId := "LambdaBuild"
        installCommands := ["cd app", "npm install"]
        buildCommands := ["npm run build"]
        artifactsBaseDirectory := "app"
        artifactsFiles := ["index.js", "node_modules/**/*"]
        buildImage := "AMAZON_LINUX_2_3"
        usesArtifactKey := true }
    pipelineName := "CrossAccountPipeline"
    stages :=
      [ { stageName := "Source"
          actions := [.source
            { actionName := "CodeCommit_Source"
              repositoryName := "repo-" ++ account
              outputArtifact := "sourceOutput"
              branch := "main" }] },
        { stageName := "Build"
          actions :=
            [.build
              { actionName := "Application_Build"
                projectId := "LambdaBuild"
                inputArtifact := "sourceOutput"
                outputArtifacts := ["LambdaBuildOutput"] },
             .build
              { actionName := "CDK_Synth"
                projectId := "CdkBuild"
                inputArtifact := "sourceOutput"
                outputArtifacts := ["CdkBuildOutput"] }] },
        { stageName := "Deploy_Uat"
          actions := [.deploy
            { actionName := "Deploy"
              templatePath := "CdkBuildOutput::UatApplicationStack.template.json"
              stackName := "UatApplicationDeploymentStack"
              adminPermissions := true
              lambdaCodeParamsFromArtifact := "LambdaBuildOutput"
              extraInputs := ["LambdaBuildOutput"]
              cfnCapabilities := ["ANONYMOUS_IAM"]
              roleArn := "arn:aws:iam::" ++ uatAccountId ++ ":role/CodePipelineCrossAccountRole"
              deploymentRoleArn := "arn:aws:iam::" ++ uatAccountId ++ ":role/CloudFormationDeploymentRole" }] },
        { stageName := "Deploy_Prod"
          actions := [.deploy
            { actionName := "Deploy"
              templatePath := "CdkBuildOutput::ProdApplicationStack.template.json"
              stackName := "ProdApplicationDeploymentStack"
              adminPermissions := true
              lambdaCodeParamsFromArtifact := "LambdaBuildOutput"
              extraInputs := ["LambdaBuildOutput"]
              cfnCapabilities := ["ANONYMOUS_IAM"]
              roleArn := "arn:aws:iam::" ++ prodAccountId ++ ":role/CodePipelineCrossAccountRole"
              deploymentRoleArn := "arn:aws:iam::" ++ prodAccountId ++ ":role/CloudFormationDeploymentRole" }] } ]
    pipelineAssumeRoleResources :=
      ["arn:aws:iam::" ++ uatAccountId ++ ":role/*", "arn:aws:iam::" ++ prodAccountId ++ ":role/*"]
    outputName := "ArtifactBucketEncryptionKeyArn"
    outputValue := "ArtifactKey.keyArn"
    outputExportName := "ArtifactBucketEncryptionKey" }

/-- Set the adminPermissions flag of a deploy action; other actions are
unchanged. -/
def setDeployAdmin (b : Bool) : PipelineAction → PipelineAction
  | .deploy d => .deploy { d with adminPermissions := b }
  | a => a

/-- Set the adminPermissions flag on every deploy action of a stage. -/
def setStageAdmin (b : Bool) (st : PipelineStage) : PipelineStage :=
  { st with actions := st.actions.map (setDeployAdmin b) }

/-- Set the adminPermissions flag on every deploy action of a pipeline. -/
def setPipelineAdmin (b : Bool) (m : PipelineModel) : PipelineModel :=
  { m with stages := m.stages.map (setStageAdmin b) }

/-- The adminPermissions flags of the deploy actions of a pipeline, in stage
order. -/
def adminFlags (m : PipelineModel) : List Bool :=
  m.stages.flatMap (fun st => st.actions.filterMap
    (fun a => match a with | .deploy d => some d.adminPermissions | _ => none))

/- ## The CDK app entry point (bin script) -/

/-- Short-circuit disjunction on javascript string values: an undefined or
empty string falls through to the right operand. -/
def jsOr (a b : Option String) : Option String :=
  match a with
  | some s => if s = "" then b else some s
  | none => b

/-- Rendering of a possibly-undefined javascript string value inside a
template literal. -/
def jsString : Option String → String
  | some s => s
  | none => "undefined"

/-- The context and environment values the app entry point reads. -/
structure AppEnv where
  uatContextValue : Option String
  prodContextValue : Option String
  cdkIntegAccount : Option String
  cdkDefaultAccount : Option String
deriving DecidableEq, Repr

/-- Line 60 of the entry point: uat-account context, then CDK_INTEG_ACCOUNT,
then CDK_DEFAULT_ACCOUNT. -/
def uatAccountId (e : AppEnv) : Option String :=
  jsOr (jsOr e.uatContextValue e.cdkIntegAccount) e.cdkDefaultAccount

/-- Line 61 of the entry point: prod-account context, then CDK_INTEG_ACCOUNT,
then CDK_DEFAULT_ACCOUNT. -/
def prodAccountId (e : AppEnv) : Option String :=
  jsOr (jsOr e.prodContextValue e.cdkIntegAccount) e.cdkDefaultAccount

/-- The stacks the app entry point constructs.  The stacks carry no explicit
env, so this.account inside them resolves to the CLI default account. -/
structure AppModel where
  repositoryStackPresent : Bool
  uatApplicationStack : ApplicationModel
  prodApplicationStack : ApplicationModel
  pipeline : PipelineModel
deriving DecidableEq, Repr

/-- The app entry point, lines 59-72: a repository stack, the two
application stacks with stage names uat and prod, and the pipeline stack
with the two resolved account ids. -/
def buildApp (e : AppEnv) : AppModel :=
  { repositoryStackPresent := true
    uatApplicationStack := applicationStack "uat"
    prodApplicationStack := applicationStack "prod"
    pipeline := pipelineStackV1 (jsString e.cdkDefaultAccount)
      (jsString (uatAccountId e)) (jsString (prodAccountId e)) }

/- ## Supporting lemmas -/

/-- Every line sed prints comes from the input. -/
theorem mem_of_mem_sedSel : ∀ (b : Bool) (ls : List String) (l : String),
    l ∈ sedSel b ls → l ∈ ls := by
  intro b ls
  induction ls generalizing b with
  | nil => intro l h; simp [sedSel] at h
  | cons x xs ih =>
    intro l h
    cases b with
    | false =>
      simp only [sedSel] at h
      split at h
      · rcases List.mem_cons.mp h with h | h
        · exact h ▸ List.mem_cons_self x xs
        · exact List.mem_cons_of_mem x (ih true l h)
      · exact List.mem_cons_of_mem x (ih false l h)
    | true =>
      simp only [sedSel] at h
      rcases List.mem_cons.mp h with h | h
      · exact h ▸ List.mem_cons_self x xs
      · exact List.mem_cons_of_mem x (ih _ l h)

/-- With no line containing the start marker, sed prints nothing. -/
theorem sedSel_false_eq_nil (ls : List String)
    (h : ∀ l ∈ ls, strContainsSub l "Outputs:" = false) : sedSel false ls = [] := by
  induction ls with
  | nil => rfl
  | cons x xs ih =>
    have hx := h x (List.mem_cons_self x xs)
    simp only [sedSel, hx]
    simp only [Bool.false_eq_true, if_false]
    exact ih (fun l hl => h l (List.mem_cons_of_mem x hl))

/-- Inside a range, when no later line re-opens a range, sed prints exactly
through the first blank line. -/
theorem sedSel_true_no_marker (ls : List String)
    (h : ∀ l ∈ ls, strContainsSub l "Outputs:" = false) :
    sedSel true ls = takeThroughBlank ls := by
  induction ls with
  | nil => rfl
  | cons x xs ih =>
    simp only [sedSel, takeThroughBlank]
    by_cases hx : x = ""
    · subst hx
      simp [sedSel_false_eq_nil xs (fun l hl => h l (List.mem_cons_of_mem _ hl))]
    · simp [hx, ih (fun l hl => h l (List.mem_cons_of_mem _ hl))]

/-- When the text has at most one line containing the Outputs: marker, the
sed selection is exactly the single region the claim describes. -/
theorem sedSel_single_marker : ∀ ls : List String,
    ls.countP (fun l => strContainsSub l "Outputs:") ≤ 1 →
    sedSel false ls = specFirstRegion ls := by
  intro ls
  induction ls with
  | nil => intro h; rfl
  | cons x xs ih =>
    intro h
    by_cases hx : strContainsSub x "Outputs:" = true
    · have h0 : xs.countP (fun l => strContainsSub l "Outputs:") = 0 := by
        simp only [List.countP_cons, hx, if_pos] at h
        omega
      have hall : ∀ l ∈ xs, strContainsSub l "Outputs:" = false := by
        intro l hl
        have := List.countP_eq_zero.mp h0 l hl
        simpa using this
      have hxne : x ≠ "" := by
        intro hxe
        rw [hxe] at hx
        exact absurd hx (by decide)
      simp only [sedSel, hx, if_true, specFirstRegion, List.dropWhile_cons, Bool.not_eq_true,
        Bool.not_true, Bool.false_eq_true, if_false, takeThroughBlank, hxne]
      simp [sedSel_true_no_marker xs hall]
    · have hx0 : strContainsSub x "Outputs:" = false := by
        cases hcs : strContainsSub x "Outputs:"
        · rfl
        · exact absurd hcs hx
      have hcount : xs.countP (fun l => strContainsSub l "Outputs:") ≤ 1 := by
        rw [List.countP_cons, hx0] at h
        omega
      simp only [sedSel, hx0, Bool.false_eq_true, if_false, specFirstRegion,
        List.dropWhile_cons, hx0, Bool.not_false, if_true]
      exact ih hcount

/-- Commands of an and-and chain of non-deployment commands contribute no
deployment step, whatever the outcomes. -/
theorem filter_deploy_andChain (ok : Step → Bool) :
    ∀ cs : List Step, (∀ c ∈ cs, isDeployStep c = false) →
      (andChain ok cs).filter isDeployStep = [] := by
  intro cs
  induction cs with
  | nil => intro h; rfl
  | cons c cs ih =>
    intro h
    have hc := h c (List.mem_cons_self c cs)
    simp only [andChain]
    by_cases hok : ok c = true
    · simp [hok, List.filter_cons, hc, ih (fun x hx => h x (List.mem_cons_of_mem c hx))]
    · simp [hok, List.filter_cons, hc]

/-- The git lines issue no deployment step. -/
theorem filter_deploy_gitSteps (t : String) (ok : Step → Bool) :
    (gitSteps t ok).filter isDeployStep = [] := by
  unfold gitSteps
  rw [List.filter_append, List.filter_append]
  rw [filter_deploy_andChain ok _ (by decide), filter_deploy_andChain ok _ (by decide)]
  simp [List.filter_cons, isDeployStep]

/-- The deployment steps of the trace: the four phase-1 role deployments,
the repository and pipeline stack deployments, and, when the extracted key
is not empty, the four phase-2 role deployments; independent of outcomes. -/
theorem filter_deploy_trace (env : BootstrapEnv) (ok : Step → Bool) (out : String) :
    (bootstrapTrace env ok out).filter isDeployStep =
      if env.tools = "" ∨ env.uat = "" ∨ env.prod = "" then []
      else
        ((phase1Calls env.tools).map Step.cfnDeploy ++
          [Step.cdkDeployRepo, Step.cdkDeployPipeline env.uat env.prod]) ++
        (if extractKeyArn out = "" then []
         else (phase2Calls env.tools (extractKeyArn out)).map Step.cfnDeploy) := by
  unfold bootstrapTrace
  by_cases hg : env.tools = "" ∨ env.uat = "" ∨ env.prod = ""
  · simp [hg]
  · rw [if_neg hg, if_neg hg, List.filter_append]
    by_cases hk : extractKeyArn out = ""
    · rw [if_pos hk, if_pos hk]
      simp [preKeySteps, phase1Calls, List.filter_cons, List.filter_append, isDeployStep]
    · rw [if_neg hk, if_neg hk, List.filter_append, List.filter_append, filter_deploy_gitSteps]
      simp [preKeySteps, phase1Calls, phase2Calls, List.filter_cons, List.filter_append,
        isDeployStep]

/- ## Claim C1 -/

/-- Claim C1 counterexample: it is not the case that in every execution of
the script all four phase-1 role deployments finish before a phase-2
deployment command starts.  The schedule in which the three background role
deployments finish late is compatible with shell semantics, because the
script has no wait barrier, and under it the repository stack deployment
starts before the first role deployment finishes. -/
theorem claim1_counterexample :
    ¬ (∀ s f : List Nat, ValidSchedule bootBgFlags s f → phase1BarrierHolds s f) := by
  intro h
  exact absurd (h lateBgStarts lateBgFinishes (by decide)) (by decide)

/-- Claim C1, amended: the fourth phase-1 role deployment runs in the
foreground, so it finishes before every later command of the script starts;
no such guarantee exists for the three background role deployments. -/
theorem claim1_main (s f : List Nat) (hv : ValidSchedule bootBgFlags s f) :
    ∀ j, 3 < j → j < bootBgFlags.length → f.getD 3 0 < s.getD j 0 := by
  obtain ⟨hs, hf, hsf, hmono, hfg⟩ := hv
  intro j h3 hj
  have h34 : f.getD 3 0 < s.getD 4 0 := hfg 3 (by decide) (by decide)
  rcases Nat.lt_or_ge 4 j with h4 | h4
  · exact lt_trans h34 (hmono j hj 4 h4)
  · have hj4 : j = 4 := by omega
    rw [hj4]
    exact h34

/-- Witness for claim C1: in the prompt schedule the fourth role deployment
finishes before the repository stack deployment starts. -/
theorem claim1_witness : promptFinishes.getD 3 0 < promptStarts.getD 8 0 :=
  claim1_main promptStarts promptFinishes (by decide) 8 (by decide) (by decide)

/- ## Claim C2 -/

/-- Claim C2 counterexample: on a captured text with two Outputs: regions,
the sed range re-opens, so the extraction returns the key token of the
second region, while the claimed first-region-only extraction returns the
empty string. -/
theorem claim2_counterexample :
    extractKeyArn "Header\nOutputs:\nfoo\n\nOutputs:\nAAA KeyArn xyz\n\n" = "xyz" ∧
    specExtractKeyArn "Header\nOutputs:\nfoo\n\nOutputs:\nAAA KeyArn xyz\n\n" = "" := by
  exact ⟨by decide, by decide⟩

/-- Claim C2, amended: the extraction selects every span of lines from a
line containing the Outputs: marker through the next blank line (the range
re-opens at later markers) and returns the third whitespace-delimited token
of each selected line containing KeyArn; on the claimed example block it
returns abcd1234, on a block with no line containing KeyArn it returns the
empty string, and when the text has at most one marker line the selection
is exactly the first-region selection the claim describes. -/
theorem claim2_main :
    extractKeyArn "Outputs:\n  ... KeyArn   abcd1234 ...\n\n" = "abcd1234" ∧
    (∀ t, (∀ l ∈ strLines t, strContainsSub l "KeyArn" = false) → extractKeyArn t = "") ∧
    (∀ ls : List String, ls.countP (fun l => strContainsSub l "Outputs:") ≤ 1 →
      sedSel false ls = specFirstRegion ls) := by
  refine ⟨by decide, ?_, sedSel_single_marker⟩
  intro t h
  unfold extractKeyArn cfnOutputsRegion
  have hnil : ((sedSel false (strLines t)).filter (fun l => strContainsSub l "KeyArn")) = [] := by
    rw [List.filter_eq_nil_iff]
    intro l hl
    have := h l (mem_of_mem_sedSel false (strLines t) l hl)
    simp [this]
  rw [hnil]
  rfl

/-- Witness for claim C2: a text with no KeyArn line extracts to empty. -/
theorem claim2_witness : extractKeyArn "deployment log with no key output" = "" :=
  claim2_main.2.1 "deployment log with no key output" (by decide)

/- ## Claim C3 -/

/-- Claim C3: when the extracted key ARN is empty, the script stops at the
line-83 check: the trace is exactly the commands before the check, it
contains no push, and every role deployment in it is a phase-1 deployment. -/
theorem claim3_main (env : BootstrapEnv) (ok : Step → Bool) (out : String)
    (h1 : env.tools ≠ "") (h2 : env.uat ≠ "") (h3 : env.prod ≠ "")
    (hk : extractKeyArn out = "") :
    bootstrapTrace env ok out = preKeySteps env ∧
    Step.gitPush ∉ bootstrapTrace env ok out ∧
    ∀ d, Step.cfnDeploy d ∈ bootstrapTrace env ok out → d ∈ phase1Calls env.tools := by
  have htr : bootstrapTrace env ok out = preKeySteps env := by
    unfold bootstrapTrace
    rw [if_neg (by simp [h1, h2, h3]), hk]
    simp
  refine ⟨htr, ?_, ?_⟩
  · rw [htr]
    simp [preKeySteps, phase1Calls]
  · intro d hd
    rw [htr] at hd
    simp only [preKeySteps, List.mem_append, List.mem_map, List.mem_cons,
      List.not_mem_nil, or_false] at hd
    rcases hd with ⟨a, ha, hae⟩ | h
    · have had : a = d := by injection hae
      exact had ▸ ha
    · simp at h

/-- Witness for claim C3: a concrete run whose captured output has no key. -/
theorem claim3_witness :
    bootstrapTrace ⟨"111", "222", "333"⟩ (fun _ => true) "deploy failed before outputs" =
      preKeySteps ⟨"111", "222", "333"⟩ :=
  (claim3_main ⟨"111", "222", "333"⟩ (fun _ => true) "deploy failed before outputs"
    (by decide) (by decide) (by decide) (by decide)).1

/- ## Claim C4 -/

/-- Claim C4: with any of the three account identifiers unset, the line-26
check exits before any command is issued: the trace is empty. -/
theorem claim4_main (env : BootstrapEnv) (ok : Step → Bool) (out : String)
    (h : env.tools = "" ∨ env.uat = "" ∨ env.prod = "") :
    bootstrapTrace env ok out = [] := by
  unfold bootstrapTrace
  rw [if_pos h]

/-- Witness for claim C4: unset tools account id gives the empty trace. -/
theorem claim4_witness :
    bootstrapTrace ⟨"", "222", "333"⟩ (fun _ => true) "whatever" = [] :=
  claim4_main ⟨"", "222", "333"⟩ (fun _ => true) "whatever" (Or.inl rfl)

/- ## Claim C5 -/

/-- Claim C5 counterexample: under the outcome assignment in which the
first phase-1 role deployment fails, later deployment commands are still
issued, so the script does not abort after a failed deployment. -/
theorem claim5_counterexample :
    ¬ abortsAfterFailedDeploy ⟨"111", "222", "333"⟩ failFirstRole
      "Outputs:\nX.KeyArn = arn:key\n\n" := by
  decide

/-- Claim C5, amended: the script never retries a deployment (each
deployment command is issued at most once) and a failed deployment does not
abort the remaining sequence: the deployment commands issued are the same
under every outcome assignment; the run is cut short only by the
missing-identifier precondition and by the empty-extracted-key check. -/
theorem claim5_main (env : BootstrapEnv) (ok ok2 : Step → Bool) (out : String) :
    (bootstrapTrace env ok out).filter isDeployStep =
      (bootstrapTrace env ok2 out).filter isDeployStep ∧
    ((bootstrapTrace env ok out).filter isDeployStep).Nodup := by
  constructor
  · rw [filter_deploy_trace, filter_deploy_trace]
  · rw [filter_deploy_trace]
    by_cases hg : env.tools = "" ∨ env.uat = "" ∨ env.prod = ""
    · simp [hg]
    · rw [if_neg hg]
      by_cases hk : extractKeyArn out = ""
      · rw [if_pos hk]
        simp [phase1Calls]
      · rw [if_neg hk]
        simp [phase1Calls, phase2Calls]

/- ## Claim C6 -/

/-- Claim C6: the four phase-2 role deployments are, up to the order of the
two prod deployments, exactly the four phase-1 deployments with the KeyArn
parameter appended: same templates, stack names, profiles and parameters,
hence the same stack identities (profile and stack name) in both phases. -/
theorem claim6_main (tools k : String) :
    (phase2Calls tools k).Perm ((phase1Calls tools).map (addKeyArn k)) ∧
    ((phase2Calls tools k).map (fun d => (d.profile, d.stackName))).Perm
      ((phase1Calls tools).map (fun d => (d.profile, d.stackName))) := by
  constructor
  · simp only [phase1Calls, phase2Calls, addKeyArn, List.map_cons, List.map_nil,
      List.cons_append, List.nil_append]
    exact .cons _ (.cons _ (.swap _ _ _))
  · simp only [phase1Calls, phase2Calls, List.map_cons, List.map_nil]
    exact .cons _ (.cons _ (.swap _ _ _))

/- ## Claim C7 -/

/-- Claim C7 counterexample: the deployment output holding the key ARN is
not named KeyArn in either pipeline variant. -/
theorem claim7_counterexample :
    (pipelineStackV1 "111" "222" "333").outputName ≠ "KeyArn" ∧
    (pipelineStackV2 "111" "222" "333").outputName ≠ "KeyArn" := by
  exact ⟨by decide, by decide⟩

/-- Claim C7, amended: both pipeline variants publish the key ARN as the
output named ArtifactBucketEncryptionKeyArn; that name is not KeyArn but
contains KeyArn, which is what the substring-matching extraction looks for,
so a captured output line carrying this output still extracts to the ARN. -/
theorem claim7_main (a u p : String) :
    (pipelineStackV1 a u p).outputName = "ArtifactBucketEncryptionKeyArn" ∧
    (pipelineStackV2 a u p).outputName = "ArtifactBucketEncryptionKeyArn" ∧
    (pipelineStackV1 a u p).outputValue = "ArtifactKey.keyArn" ∧
    (pipelineStackV2 a u p).outputValue = "ArtifactKey.keyArn" ∧
    strContainsSub (pipelineStackV1 a u p).outputName "KeyArn" = true ∧
    extractKeyArn "Outputs:\nCrossAccountPipelineStack.ArtifactBucketEncryptionKeyArn = arn:aws:kms:us-west-2:111222333444:key/abcd\n\nStack ARN:\narn:aws:cloudformation:stack\n"
      = "arn:aws:kms:us-west-2:111222333444:key/abcd" :=
  ⟨rfl, rfl, rfl, rfl,
    (by decide : strContainsSub "ArtifactBucketEncryptionKeyArn" "KeyArn" = true), by decide⟩

/- ## Claim C8 -/

/-- Claim C8: the two PipelineStack variants declare identical resource
graphs apart from the adminPermissions flag of the two deploy actions:
overwriting that flag maps each variant onto the other, and the flags are
false on both deploy actions of the first variant and true on both deploy
actions of the second. -/
theorem claim8_main (a u p : String) :
    setPipelineAdmin true (pipelineStackV1 a u p) = pipelineStackV2 a u p ∧
    setPipelineAdmin false (pipelineStackV2 a u p) = pipelineStackV1 a u p ∧
    adminFlags (pipelineStackV1 a u p) = [false, false] ∧
    adminFlags (pipelineStackV2 a u p) = [true, true] :=
  ⟨rfl, rfl, rfl, rfl⟩

/- ## Claim C9 -/

/-- Claim C9: without the uat-account and prod-account context values the
app still constructs all stacks; the account ids fall back first to
CDK_INTEG_ACCOUNT and then to CDK_DEFAULT_ACCOUNT, so with neither context
set the produced pipeline targets the default (tools) account as both UAT
and Prod. -/
theorem claim9_main (e : AppEnv) (tools : String)
    (hu : e.uatContextValue = none) (hp : e.prodContextValue = none)
    (hd : e.cdkDefaultAccount = some tools) :
    uatAccountId e = jsOr e.cdkIntegAccount (some tools) ∧
    prodAccountId e = jsOr e.cdkIntegAccount (some tools) ∧
    (e.cdkIntegAccount = none →
      (buildApp e).pipeline = pipelineStackV1 tools tools tools) ∧
    (∀ i, e.cdkIntegAccount = some i → i ≠ "" →
      (buildApp e).pipeline = pipelineStackV1 tools i i) := by
  obtain ⟨cu, cp, ci, cd⟩ := e
  simp only at hu hp hd
  subst hu hp hd
  refine ⟨rfl, rfl, ?_, ?_⟩
  · intro hi
    simp only at hi
    subst hi
    rfl
  · intro i hi hne
    simp only at hi
    subst hi
    simp [buildApp, uatAccountId, prodAccountId, jsOr, jsString, hne]

/-- Witness for claim C9: with no context and no CDK_INTEG_ACCOUNT, the
pipeline targets account 111 as tools, UAT and Prod. -/
theorem claim9_witness :
    (buildApp ⟨none, none, none, some "111"⟩).pipeline = pipelineStackV1 "111" "111" "111" :=
  (claim9_main ⟨none, none, none, some "111"⟩ "111" rfl rfl rfl).2.2.1 rfl

/- ## Claim C10 -/

/-- Claim C10: the application stack binds the supplied stage name to the
STAGE_NAME environment entry, the api deployment stage name and the alias
name; the function name is the constant HelloLambda; and two application
stacks differ only in the stage-name-bearing fields. -/
theorem claim10_main (s : String) :
    (applicationStack s).stageNameEnv = s ∧
    (applicationStack s).apiDeployStageName = s ∧
    (applicationStack s).aliasName = s ∧
    (applicationStack s).functionName = "HelloLambda" ∧
    (∀ t, setApplicationStage (applicationStack s) t = applicationStack t) :=
  ⟨rfl, rfl, rfl, rfl, fun _ => rfl⟩

end AwsCicd
